import Mathlib

/-!
Verification of the evaluation core of the hurl test runner against its
specification.  The Rust sources under `packages/hurl/src` are shallowly
embedded: mutable readers become explicit state passing, `Result` becomes
`Except`, and collaborator functions that live outside the embedded files
(template evaluation, markup-query evaluation, query/filter/predicate
evaluation) are taken as function parameters.
-/

namespace Hurl

/-- A line/column position, as in `hurl_core::ast::Pos`. -/
structure Pos where
  line : Nat
  column : Nat
deriving DecidableEq, Repr

/-- A source range `{ start, end }`, as in `hurl_core::ast::SourceInfo`.
The `end` field is named `stop` because `end` is a Lean keyword. -/
structure SourceInfo where
  start : Pos
  stop : Pos
deriving DecidableEq, Repr

/-! ## Parser substrate (`jsonpath/parser/combinators.rs`)

`reader.rs` and `error.rs` of the jsonpath parser are not under `src/`;
the reader state and parse error are modelled from the spec and from the
fields the combinators use. -/

/-- Modelled from the spec: reader state (reader.rs is not under src/) with
`pos` the byte offset and `cursor` the char offset; these are exactly the
fields the combinators save and restore. -/
structure ReaderState where
  pos : Nat
  cursor : Nat
deriving DecidableEq, Repr

/-- Modelled from the spec: a reader (reader.rs is not under src/) is a fixed
buffer of chars together with a mutable state. -/
structure Reader where
  buffer : List Char
  state : ReaderState
deriving DecidableEq, Repr

/-- Modelled from the spec: end of input is reached when the cursor has
consumed the whole buffer. -/
def Reader.is_eof (p : Reader) : Bool :=
  p.state.cursor ≥ p.buffer.length

/-- Modelled from the spec: a parse error (error.rs is not under src/) carries
a position, a kind (kept opaque as a string) and the `recoverable` flag that
drives backtracking. -/
structure ParseError where
  pos : Nat
  recoverable : Bool
  kind : String
deriving DecidableEq, Repr

/-- A parse function takes a reader and returns a result together with the
reader after the call (Rust passes the reader by mutable reference). -/
def ParseFunc (T : Type) : Type :=
  Reader → Except ParseError T × Reader

/-- Replaces the reader's state, as the Rust assignment `reader.state = start`
does in `choice`. -/
def Reader.with_state (p : Reader) (s : ReaderState) : Reader :=
  { p with state := s }

/-- Restores only the `pos` and `cursor` fields of the state, as the Rust
assignments in `zero_or_more` do. -/
def Reader.restore_pos_cursor (p : Reader) (s : ReaderState) : Reader :=
  { p with state := { p.state with pos := s.pos, cursor := s.cursor } }

/-- `choice` from `combinators.rs`: tries the parse functions in order.  The
source aborts the process when called with an empty list; the empty case is
modelled as a fatal (non-recoverable) error and is outside every claim. -/
def choice {T : Type} (fs : List (ParseFunc T)) (reader : Reader) :
    Except ParseError T × Reader :=
  match fs with
  | [] =>
    (Except.error { pos := reader.state.pos, recoverable := false,
                    kind := "empty choice" }, reader)
  | [f] => f reader
  | f :: g :: rest =>
    let start := reader.state
    match f reader with
    | (Except.error e, reader') =>
      if e.recoverable then choice (g :: rest) (reader'.with_state start)
      else (Except.error e, reader')
    | x => x

/-- The loop of `zero_or_more` from `combinators.rs`, with the accumulated
results `v` explicit and a fuel parameter standing for the (unbounded) Rust
loop; `none` means the fuel ran out before the loop returned. -/
def zero_or_more_loop {T : Type} (f : ParseFunc T) :
    Nat → Reader → List T → Option (Except ParseError (List T) × Reader)
  | 0, _, _ => none
  | fuel + 1, p, v =>
    let initial_state := p.state
    if p.is_eof then some (Except.ok v, p)
    else
      match f p with
      | (Except.ok r, p') => zero_or_more_loop f fuel p' (v ++ [r])
      | (Except.error e, p') =>
        if e.recoverable then
          some (Except.ok v, p'.restore_pos_cursor initial_state)
        else
          some (Except.error e, p')

/-- `zero_or_more` from `combinators.rs`: the loop started with an empty
accumulator. -/
def zero_or_more {T : Type} (f : ParseFunc T) (fuel : Nat) (p : Reader) :
    Option (Except ParseError (List T) × Reader) :=
  zero_or_more_loop f fuel p []

/-! ## Value model and runner errors

`value.rs` and `error.rs` of the runner are not under `src/`; the `Value`
union, its type-name view and its display rendering are modelled from the
spec, and `RunnerErrorKind` lists exactly the kinds the embedded files use. -/

/-- Modelled from the spec: the `Value` tagged union (value.rs is not under
src/) over Null, Bool, Integer, String, List, Bytes and Nodeset; the Float
variant is outside the embedding. -/
inductive Value where
  | null
  | bool (b : Bool)
  | number (n : Int)
  | string (s : String)
  | list (xs : List Value)
  | bytes (bs : List Nat)
  | nodeset (size : Nat)

mutual

/-- Modelled from the spec: structural equality of Values (value.rs is not
under src/). -/
def Value.beq : Value → Value → Bool
  | .null, .null => true
  | .bool a, .bool b => a == b
  | .number a, .number b => a == b
  | .string a, .string b => a == b
  | .list a, .list b => Value.beqList a b
  | .bytes a, .bytes b => a == b
  | .nodeset a, .nodeset b => a == b
  | _, _ => false

/-- Pointwise structural equality of lists of Values. -/
def Value.beqList : List Value → List Value → Bool
  | [], [] => true
  | x :: xs, y :: ys => Value.beq x y && Value.beqList xs ys
  | _, _ => false

end

mutual

/-- Modelled from the spec: Values stringified for display in assertion
failure messages (value.rs is not under src/). -/
def Value.display : Value → String
  | .null => "null"
  | .bool b => toString b
  | .number n => toString n
  | .string s => s
  | .list xs => "[" ++ String.intercalate "," (Value.displayList xs) ++ "]"
  | .bytes bs => "bytes " ++ toString bs
  | .nodeset n => "nodeset of size " ++ toString n

/-- Display of each Value in a list. -/
def Value.displayList : List Value → List String
  | [] => []
  | x :: xs => Value.display x :: Value.displayList xs

end

/-- Modelled from the spec: each variant exposes a stable type-name string
used in error messages (value.rs is not under src/). -/
def Value._type : Value → String
  | .null => "null"
  | .bool _ => "boolean"
  | .number _ => "number"
  | .string _ => "string"
  | .list _ => "list"
  | .bytes _ => "bytes"
  | .nodeset _ => "nodeset"

/-- The runner error kinds used by the embedded files, from
`runner/error.rs` (not under src/; the carried payloads follow the spec's
taxonomy in §7). -/
inductive RunnerErrorKind where
  | AssertVersion (actual : String)
  | AssertStatus (actual : String)
  | AssertHeaderValueError (actual : String)
  | AssertBodyValueError (actual : String) (expected : String)
  | FilterMissingInput
  | FilterInvalidInput (type_name : String)
  | QueryInvalidXml
  | QueryInvalidXpathEval
  | TemplateVariableNotDefined (name : String)
deriving DecidableEq, Repr

/-- A runner error: a source range, a kind, and the `assert` flag marking
whether the error arose while evaluating an assertion. -/
structure RunnerError where
  source_info : SourceInfo
  kind : RunnerErrorKind
  assert : Bool
deriving DecidableEq, Repr

/-- `RunnerError::new(source_info, kind, assert)`. -/
def RunnerError.new (source_info : SourceInfo) (kind : RunnerErrorKind)
    (assert : Bool) : RunnerError :=
  { source_info := source_info, kind := kind, assert := assert }

/-! ## Expression evaluator (`runner/expr.rs`) -/

/-- Whitespace token of the AST, as in `hurl_core::ast::Whitespace`. -/
structure Whitespace where
  value : String
  source_info : SourceInfo

/-- A variable reference, as in `hurl_core::ast::Variable`. -/
structure Variable where
  name : String
  source_info : SourceInfo

/-- An expression node, as in `hurl_core::ast::Expr`; the `variable` field is
named `var` because `variable` is a Lean keyword. -/
structure Expr where
  space0 : Whitespace
  var : Variable
  space1 : Whitespace

/-- `eval_expr` from `runner/expr.rs`: looks the expression's variable name up
in the variable environment (the `variables` HashMap is modelled as an
association list and named `vars`, since `variables` is reserved in Lean). -/
def eval_expr (expr : Expr) (vars : List (String × Value)) :
    Except RunnerError Value :=
  match vars.lookup expr.var.name with
  | some value => Except.ok value
  | none =>
    Except.error (RunnerError.new expr.var.source_info
      (RunnerErrorKind.TemplateVariableNotDefined expr.var.name) false)

/-! ## Xpath filter (`runner/filter/xpath.rs`)

The template evaluator (`runner/template.rs`) and the markup-query
collaborator (`runner::xpath::eval_html` / `eval_xml`) are not under `src/`;
they are taken as function parameters, with the variable environment folded
into the template evaluator.  The outcome type wraps the translated result in
`Option`: `none` models the process abort the source performs on the
`Unsupported` collaborator outcome. -/

/-- A template node, as in `hurl_core::ast::Template`; its delimiter and
element list are consumed only by the template-evaluation collaborator and
are kept opaque as `raw`. -/
structure Template where
  raw : String
  source_info : SourceInfo

/-- The markup collaborator's error, `runner::xpath::XpathError`. -/
inductive XpathError where
  | InvalidXml
  | InvalidHtml
  | Eval
  | Unsupported
deriving DecidableEq, Repr

/-- `eval_xpath_string` from `runner/filter/xpath.rs`: resolves the expression
template, evaluates it against the markup via the collaborator, and translates
the collaborator's outcomes; `none` models the process abort on the
`Unsupported` outcome. -/
def eval_xpath_string
    (eval_template : Template → Except RunnerError String)
    (eval_html : String → String → Except XpathError Value)
    (eval_xml : String → String → Except XpathError Value)
    (xml : String) (expr_template : Template) (source_info : SourceInfo)
    (is_html : Bool) : Option (Except RunnerError (Option Value)) :=
  match eval_template expr_template with
  | Except.error e => some (Except.error e)
  | Except.ok expr =>
    let result := if is_html then eval_html xml expr else eval_xml xml expr
    match result with
    | Except.ok value => some (Except.ok (some value))
    | Except.error XpathError.InvalidXml =>
      some (Except.error (RunnerError.new source_info
        RunnerErrorKind.QueryInvalidXml false))
    | Except.error XpathError.InvalidHtml =>
      some (Except.error (RunnerError.new source_info
        RunnerErrorKind.QueryInvalidXml false))
    | Except.error XpathError.Eval =>
      some (Except.error (RunnerError.new expr_template.source_info
        RunnerErrorKind.QueryInvalidXpathEval false))
    | Except.error XpathError.Unsupported => none

/-- `eval_xpath` from `runner/filter/xpath.rs`: a string input goes to
`eval_xpath_string` with the HTML parser selected; any other variant fails
immediately with `FilterInvalidInput` carrying the value's type name and the
given `assert` flag. -/
def eval_xpath
    (eval_template : Template → Except RunnerError String)
    (eval_html : String → String → Except XpathError Value)
    (eval_xml : String → String → Except XpathError Value)
    (value : Value) (expr : Template) (source_info : SourceInfo)
    (assert : Bool) : Option (Except RunnerError (Option Value)) :=
  match value with
  | Value.string xml =>
    let is_html := true
    eval_xpath_string eval_template eval_html eval_xml xml expr source_info
      is_html
  | v =>
    some (Except.error (RunnerError.new source_info
      (RunnerErrorKind.FilterInvalidInput (Value._type v)) assert))

/-! ## Assertions (`runner/assert.rs`)

The query, filter and predicate evaluators (`runner/query.rs`,
`runner/filter/mod.rs`, `runner/predicate.rs`) are not under `src/`; they are
taken as function parameters, with the variable environment, HTTP response and
context directory folded into them. -/

/-- A query AST node; opaque to this core, consumed only by the
query-evaluation collaborator. -/
structure Query where
  raw : String

/-- A filter AST node, as in `hurl_core::ast::Filter`: a source range and a
filter value (opaque, consumed only by the filter-evaluation collaborator). -/
structure Filter where
  source_info : SourceInfo
  value : String

/-- A predicate function node, as in `hurl_core::ast::PredicateFunc`: a source
range and a predicate value (opaque, consumed only by the predicate-evaluation
collaborator). -/
structure PredicateFunc where
  source_info : SourceInfo
  value : String

/-- A predicate node, as in `hurl_core::ast::Predicate`. -/
structure Predicate where
  not : Bool
  space0 : Whitespace
  predicate_func : PredicateFunc

/-- An explicit assert, as in `hurl_core::ast::Assert`; the layout-only fields
(`line_terminators`, `space0`, `space1`, `line_terminator0`) are omitted as no
embedded code reads them. -/
structure Assert where
  query : Query
  filters : List (Whitespace × Filter)
  predicate : Predicate

/-- The `AssertResult` variants, from `runner/result.rs` (not under src/;
the shape follows the spec's §3 list, which the embedded `error()` and
`eval_explicit_assert` match against). -/
inductive AssertResult where
  | Version (actual : String) (expected : String) (source_info : SourceInfo)
  | Status (actual : Nat) (expected : Nat) (source_info : SourceInfo)
  | Header (actual : Except RunnerError String) (expected : String)
      (source_info : SourceInfo)
  | Body (actual : Except RunnerError Value)
      (expected : Except RunnerError Value) (source_info : SourceInfo)
  | Explicit (actual : Except RunnerError (Option Value))
      (source_info : SourceInfo)
      (predicate_result : Option (Except RunnerError Unit))

/-- `AssertResult::error` from `runner/assert.rs`: returns `none` when the
assert succeeded, or the failure's `RunnerError`. -/
def AssertResult.error : AssertResult → Option RunnerError
  | .Version actual expected source_info =>
    if expected == "HTTP" || expected == "HTTP/*" || actual == expected then
      none
    else
      some (RunnerError.new source_info
        (RunnerErrorKind.AssertVersion actual) false)
  | .Status actual expected source_info =>
    if actual == expected then
      none
    else
      some (RunnerError.new source_info
        (RunnerErrorKind.AssertStatus (toString actual)) false)
  | .Header actual expected source_info =>
    match actual with
    | Except.error e => some e
    | Except.ok s =>
      if s == expected then
        none
      else
        some (RunnerError.new source_info
          (RunnerErrorKind.AssertHeaderValueError s) false)
  | .Body actual expected source_info =>
    match expected with
    | Except.error e => some e
    | Except.ok expectedValue =>
      match actual with
      | Except.error e => some e
      | Except.ok actualValue =>
        if Value.beq actualValue expectedValue then
          none
        else
          some (RunnerError.new source_info
            (RunnerErrorKind.AssertBodyValueError (Value.display actualValue)
              (Value.display expectedValue)) false)
  | .Explicit (Except.error e) _ _ => some e
  | .Explicit _ _ (some (Except.error e)) => some e
  | _ => none

/-- `AssertResult::line` from `runner/assert.rs`. -/
def AssertResult.line : AssertResult → Nat
  | .Version _ _ source_info => source_info.start.line
  | .Status _ _ source_info => source_info.start.line
  | .Header _ _ source_info => source_info.start.line
  | .Body _ _ source_info => source_info.start.line
  | .Explicit _ source_info _ => source_info.start.line

/-- `eval_explicit_assert` from `runner/assert.rs`.  The Rust code tests
`assert.filters.is_empty()` and later unwraps `assert.filters.first()`; the
match on the filter list does both at once. -/
def eval_explicit_assert
    (eval_query : Query → Except RunnerError (Option Value))
    (eval_filters : List Filter → Value → Except RunnerError (Option Value))
    (eval_predicate : Predicate → Option Value → Except RunnerError Unit)
    (assert : Assert) : AssertResult :=
  let query_result := eval_query assert.query
  let actual :=
    match assert.filters with
    | [] => query_result
    | first :: _ =>
      match query_result with
      | Except.ok optional_value =>
        match optional_value with
        | none =>
          Except.error
            { source_info := first.2.source_info,
              kind := RunnerErrorKind.FilterMissingInput,
              assert := true }
        | some value =>
          let filters := assert.filters.map (fun p => p.2)
          match eval_filters filters value with
          | Except.ok value => Except.ok value
          | Except.error e => Except.error e
      | _ => query_result
  let source_info := assert.predicate.predicate_func.source_info
  let predicate_result :=
    match actual with
    | Except.error _ => none
    | Except.ok actualValue => some (eval_predicate assert.predicate actualValue)
  AssertResult.Explicit actual source_info predicate_result

/-! ## Result serialization (`json/result.rs`)

Only the certificate serialization is needed by the claims.  `serde_json`
values are modelled by a small JSON inductive, with objects as key/value
lists in insertion order; `chrono::DateTime<Utc>` is a collaborator type
modelled by its `to_string` rendering. -/

/-- A JSON value, modelling `serde_json::Value`. -/
inductive Json where
  | null
  | bool (b : Bool)
  | num (n : Nat)
  | str (s : String)
  | arr (xs : List Json)
  | obj (fields : List (String × Json))

/-- Modelled from the spec: a `chrono::DateTime<Utc>` collaborator value,
represented by its `to_string` rendering. -/
structure DateTimeUtc where
  rendered : String

/-- `json_date` from `json/result.rs`: a date is rendered as the string
`value.to_string()`. -/
def json_date (value : DateTimeUtc) : Json :=
  Json.str value.rendered

/-- An HTTP certificate, from `http` (not under src/); exactly the fields
`Certificate::to_json` reads. -/
structure Certificate where
  subject : String
  issuer : String
  start_date : DateTimeUtc
  expire_date : DateTimeUtc
  serial_number : String

/-- `Certificate::to_json` from `json/result.rs`: the five insertions into the
map, in source order. -/
def Certificate.to_json (c : Certificate) : Json :=
  Json.obj
    [("subject", Json.str c.subject),
     ("issue", Json.str c.issuer),
     ("start_date", json_date c.start_date),
     ("expire_date", json_date c.expire_date),
     ("serial_number", Json.str c.serial_number)]

/-! ### Concrete fixtures used by witnesses -/

/-- A concrete source range. -/
def wSourceInfo : SourceInfo :=
  { start := { line := 1, column := 1 }, stop := { line := 1, column := 2 } }

/-- A second, distinct concrete source range. -/
def wSourceInfo2 : SourceInfo :=
  { start := { line := 2, column := 3 }, stop := { line := 2, column := 9 } }

/-- A concrete whitespace token. -/
def wWhitespace : Whitespace :=
  { value := " ", source_info := wSourceInfo }

/-- A concrete expression template. -/
def wTemplate : Template :=
  { raw := "//user", source_info := wSourceInfo2 }

/-- A concrete filter node. -/
def wFilter : Filter :=
  { source_info := wSourceInfo2, value := "count" }

/-- A concrete predicate node. -/
def wPredicate : Predicate :=
  { not := false, space0 := wWhitespace,
    predicate_func := { source_info := wSourceInfo, value := "equal 3" } }

/-- A concrete assert with no filter. -/
def wAssert0 : Assert :=
  { query := { raw := "xpath //user" }, filters := [], predicate := wPredicate }

/-- A concrete assert with one filter. -/
def wAssert1 : Assert :=
  { query := { raw := "xpath //user" },
    filters := [(wWhitespace, wFilter)], predicate := wPredicate }

/-- A concrete variable environment binding name to the string Bob. -/
def wVars : List (String × Value) :=
  [("name", Value.string "Bob")]

/-- A concrete expression referring to the variable name. -/
def wExprName : Expr :=
  { space0 := wWhitespace,
    var := { name := "name", source_info := wSourceInfo },
    space1 := wWhitespace }

/-- A query evaluator that returns no value. -/
def wEvalQueryNone : Query → Except RunnerError (Option Value) :=
  fun _ => Except.ok none

/-- A query evaluator that returns the number 3. -/
def wEvalQuerySome3 : Query → Except RunnerError (Option Value) :=
  fun _ => Except.ok (some (Value.number 3))

/-- A filter-chain evaluator that returns the number 3. -/
def wEvalFiltersOk : List Filter → Value → Except RunnerError (Option Value) :=
  fun _ _ => Except.ok (some (Value.number 3))

/-- A predicate evaluator that always succeeds. -/
def wEvalPredicateOk : Predicate → Option Value → Except RunnerError Unit :=
  fun _ _ => Except.ok ()

/-- A template evaluator that resolves a template to its raw text. -/
def wEvalTemplate : Template → Except RunnerError String :=
  fun t => Except.ok t.raw

/-- A markup collaborator that always reports invalid XML. -/
def wEvalMarkupInvalidXml : String → String → Except XpathError Value :=
  fun _ _ => Except.error XpathError.InvalidXml

/-- A one-character reader used as a concrete input by witnesses. -/
def wReader : Reader :=
  { buffer := ['a'], state := { pos := 0, cursor := 0 } }

/-- A parse function that always succeeds, consuming to position 1. -/
def wOk : ParseFunc Nat :=
  fun p => (Except.ok 7, p.with_state { pos := 1, cursor := 1 })

/-- A parse function that always fails recoverably, leaving the reader at
position 5. -/
def wErrRec : ParseFunc Nat :=
  fun p =>
    (Except.error { pos := 0, recoverable := true, kind := "r" },
     p.with_state { pos := 5, cursor := 5 })

/-- Claim C1: `choice` tries the alternatives left to right; for every
alternative except the last a success is returned, a recoverable failure
restores the reader state to what it was before that alternative and tries the
next, and a non-recoverable failure is returned immediately; the last
alternative's result is returned verbatim with no restore and no fallback. -/
theorem choice_alternative_semantics {T : Type} (f g : ParseFunc T)
    (rest : List (ParseFunc T)) (r : Reader) :
    choice [f] r = f r ∧
    (∀ v r', f r = (Except.ok v, r') →
      choice (f :: g :: rest) r = (Except.ok v, r')) ∧
    (∀ e r', f r = (Except.error e, r') → e.recoverable = true →
      choice (f :: g :: rest) r = choice (g :: rest) (r'.with_state r.state)) ∧
    (∀ e r', f r = (Except.error e, r') → e.recoverable = false →
      choice (f :: g :: rest) r = (Except.error e, r')) := by
  refine ⟨rfl, ?_, ?_, ?_⟩
  · intro v r' h
    simp only [choice, h]
  · intro e r' h hrec
    simp only [choice, h, hrec, if_true]
  · intro e r' h hrec
    simp only [choice, h, hrec, Bool.false_eq_true, if_false]

/-- Witness for C1: the recoverable-failure case of `choice` at a concrete
input, with the reader state restored before the next alternative runs. -/
theorem choice_alternative_semantics_witness :
    choice [wErrRec, wOk] wReader =
      choice [wOk]
        ((wReader.with_state { pos := 5, cursor := 5 }).with_state wReader.state) :=
  (choice_alternative_semantics wErrRec wOk [] wReader).2.2.1
    { pos := 0, recoverable := true, kind := "r" }
    (wReader.with_state { pos := 5, cursor := 5 }) rfl rfl

/-- Claim C2: `zero_or_more` repeatedly applies `f`; at end-of-input it
returns `Ok` of the accumulated list, on a recoverable failure it restores the
reader to the position held before that attempt and returns `Ok` of the list
collected so far, and on a non-recoverable failure it returns that error
immediately, discarding the partial results. -/
theorem zero_or_more_semantics {T : Type} (f : ParseFunc T) (fuel : Nat)
    (p : Reader) (acc : List T) :
    zero_or_more f fuel p = zero_or_more_loop f fuel p [] ∧
    (p.is_eof = true →
      zero_or_more_loop f (fuel + 1) p acc = some (Except.ok acc, p)) ∧
    (∀ e p', p.is_eof = false → f p = (Except.error e, p') →
      e.recoverable = true →
      zero_or_more_loop f (fuel + 1) p acc =
        some (Except.ok acc, p'.restore_pos_cursor p.state)) ∧
    (∀ e p', p.is_eof = false → f p = (Except.error e, p') →
      e.recoverable = false →
      zero_or_more_loop f (fuel + 1) p acc = some (Except.error e, p')) ∧
    (∀ x p', p.is_eof = false → f p = (Except.ok x, p') →
      zero_or_more_loop f (fuel + 1) p acc =
        zero_or_more_loop f fuel p' (acc ++ [x])) := by
  refine ⟨rfl, ?_, ?_, ?_, ?_⟩
  · intro heof
    simp only [zero_or_more_loop, heof, if_true]
  · intro e p' heof h hrec
    simp only [zero_or_more_loop, heof, Bool.false_eq_true, if_false, h, hrec,
      if_true]
  · intro e p' heof h hrec
    simp only [zero_or_more_loop, heof, Bool.false_eq_true, if_false, h, hrec]
  · intro x p' heof h
    simp only [zero_or_more_loop, heof, Bool.false_eq_true, if_false, h]

/-- Witness for C2: the recoverable-failure case of `zero_or_more` at a
concrete input, returning `Ok []` with the reader restored. -/
theorem zero_or_more_semantics_witness :
    zero_or_more_loop wErrRec 1 wReader [] =
      some (Except.ok [],
        (wReader.with_state { pos := 5, cursor := 5 }).restore_pos_cursor
          wReader.state) :=
  (zero_or_more_semantics wErrRec 0 wReader []).2.2.1
    { pos := 0, recoverable := true, kind := "r" }
    (wReader.with_state { pos := 5, cursor := 5 }) rfl rfl rfl

/-- Claim C7: `eval_expr` returns `Ok` of the bound value when the
expression's variable name is present in the environment, and otherwise
`Err (TemplateVariableNotDefined name)` at the variable reference's source
position; no coercion or defaulting occurs. -/
theorem eval_expr_lookup (expr : Expr) (vars : List (String × Value)) :
    (∀ v, vars.lookup expr.var.name = some v →
      eval_expr expr vars = Except.ok v) ∧
    (vars.lookup expr.var.name = none →
      eval_expr expr vars =
        Except.error (RunnerError.new expr.var.source_info
          (RunnerErrorKind.TemplateVariableNotDefined expr.var.name) false)) := by
  constructor
  · intro v h
    simp only [eval_expr, h]
  · intro h
    simp only [eval_expr, h]

/-- Witness for C7: looking up a bound variable at a concrete environment
returns the bound value. -/
theorem eval_expr_lookup_witness :
    eval_expr wExprName wVars = Except.ok (Value.string "Bob") :=
  (eval_expr_lookup wExprName wVars).1 (Value.string "Bob") rfl

/-- Claim C5: for every non-string `Value`, `eval_xpath` fails immediately
with `FilterInvalidInput` carrying the value's type name; the right-hand side
mentions neither the template evaluator nor the markup collaborators, so no
template evaluation or markup parsing is attempted. -/
theorem eval_xpath_type_gate
    (eval_template : Template → Except RunnerError String)
    (eval_html : String → String → Except XpathError Value)
    (eval_xml : String → String → Except XpathError Value)
    (v : Value) (t : Template) (si : SourceInfo) (a : Bool)
    (h : ∀ s, v ≠ Value.string s) :
    eval_xpath eval_template eval_html eval_xml v t si a =
      some (Except.error (RunnerError.new si
        (RunnerErrorKind.FilterInvalidInput (Value._type v)) a)) := by
  cases v with
  | string s => exact absurd rfl (h s)
  | null => rfl
  | bool b => rfl
  | number n => rfl
  | list xs => rfl
  | bytes bs => rfl
  | nodeset n => rfl

/-- Witness for C5: `eval_xpath` on a boolean input at concrete collaborators
returns the `FilterInvalidInput` error with the type name boolean. -/
theorem eval_xpath_type_gate_witness :
    eval_xpath wEvalTemplate wEvalMarkupInvalidXml wEvalMarkupInvalidXml
        (Value.bool true) wTemplate wSourceInfo true =
      some (Except.error (RunnerError.new wSourceInfo
        (RunnerErrorKind.FilterInvalidInput "boolean") true)) :=
  eval_xpath_type_gate wEvalTemplate wEvalMarkupInvalidXml
    wEvalMarkupInvalidXml (Value.bool true) wTemplate wSourceInfo true
    (fun _ h => Value.noConfusion h)

/-- Claim C6: `eval_xpath_string` translates the collaborator outcomes:
either invalid-markup kind becomes `QueryInvalidXml` at the input value's
source position, the evaluation-failure kind becomes `QueryInvalidXpathEval`
at the expression template's source position, and a successful outcome `v`
becomes `Ok (Some v)`. -/
theorem eval_xpath_string_outcome_translation
    (eval_template : Template → Except RunnerError String)
    (eval_html : String → String → Except XpathError Value)
    (eval_xml : String → String → Except XpathError Value)
    (xml : String) (t : Template) (si : SourceInfo) (is_html : Bool)
    (expr : String) (hte : eval_template t = Except.ok expr) :
    ((if is_html then eval_html xml expr else eval_xml xml expr) =
        Except.error XpathError.InvalidXml →
      eval_xpath_string eval_template eval_html eval_xml xml t si is_html =
        some (Except.error (RunnerError.new si
          RunnerErrorKind.QueryInvalidXml false))) ∧
    ((if is_html then eval_html xml expr else eval_xml xml expr) =
        Except.error XpathError.InvalidHtml →
      eval_xpath_string eval_template eval_html eval_xml xml t si is_html =
        some (Except.error (RunnerError.new si
          RunnerErrorKind.QueryInvalidXml false))) ∧
    ((if is_html then eval_html xml expr else eval_xml xml expr) =
        Except.error XpathError.Eval →
      eval_xpath_string eval_template eval_html eval_xml xml t si is_html =
        some (Except.error (RunnerError.new t.source_info
          RunnerErrorKind.QueryInvalidXpathEval false))) ∧
    (∀ v, (if is_html then eval_html xml expr else eval_xml xml expr) =
        Except.ok v →
      eval_xpath_string eval_template eval_html eval_xml xml t si is_html =
        some (Except.ok (some v))) := by
  refine ⟨?_, ?_, ?_, ?_⟩
  · intro h
    simp only [eval_xpath_string, hte, h]
  · intro h
    simp only [eval_xpath_string, hte, h]
  · intro h
    simp only [eval_xpath_string, hte, h]
  · intro v h
    simp only [eval_xpath_string, hte, h]

/-- Witness for C6: an invalid-XML collaborator outcome at a concrete input is
translated to `QueryInvalidXml` at the input value's source position. -/
theorem eval_xpath_string_outcome_translation_witness :
    eval_xpath_string wEvalTemplate wEvalMarkupInvalidXml wEvalMarkupInvalidXml
        "<broken" wTemplate wSourceInfo true =
      some (Except.error (RunnerError.new wSourceInfo
        RunnerErrorKind.QueryInvalidXml false)) :=
  (eval_xpath_string_outcome_translation wEvalTemplate wEvalMarkupInvalidXml
    wEvalMarkupInvalidXml "<broken" wTemplate wSourceInfo true
    wTemplate.raw rfl).1 rfl

/-- Claim C10: the `assert` flag given to `eval_xpath` is carried only by the
`FilterInvalidInput` error for non-string inputs; for string inputs the result
does not depend on the flag at all, and whenever the template resolves the
errors `eval_xpath_string` itself produces have their `assert` flag false. -/
theorem xpath_assert_flag
    (eval_template : Template → Except RunnerError String)
    (eval_html : String → String → Except XpathError Value)
    (eval_xml : String → String → Except XpathError Value) :
    (∀ v t si a, (∀ s, v ≠ Value.string s) →
      ∃ e, eval_xpath eval_template eval_html eval_xml v t si a =
          some (Except.error e) ∧
        e.assert = a ∧
        e.kind = RunnerErrorKind.FilterInvalidInput (Value._type v)) ∧
    (∀ s t si a a',
      eval_xpath eval_template eval_html eval_xml (Value.string s) t si a =
        eval_xpath eval_template eval_html eval_xml (Value.string s) t si a') ∧
    (∀ xml t si is_html expr e, eval_template t = Except.ok expr →
      eval_xpath_string eval_template eval_html eval_xml xml t si is_html =
        some (Except.error e) →
      e.assert = false) := by
  refine ⟨?_, ?_, ?_⟩
  · intro v t si a h
    cases v with
    | string s => exact absurd rfl (h s)
    | null => exact ⟨_, rfl, rfl, rfl⟩
    | bool b => exact ⟨_, rfl, rfl, rfl⟩
    | number n => exact ⟨_, rfl, rfl, rfl⟩
    | list xs => exact ⟨_, rfl, rfl, rfl⟩
    | bytes bs => exact ⟨_, rfl, rfl, rfl⟩
    | nodeset n => exact ⟨_, rfl, rfl, rfl⟩
  · intro s t si a a'
    rfl
  · intro xml t si is_html expr e hte h
    simp only [eval_xpath_string, hte] at h
    cases hr : (if is_html then eval_html xml expr else eval_xml xml expr) with
    | ok v =>
      rw [hr] at h
      simp only [Option.some.injEq] at h
      exact Except.noConfusion h
    | error xe =>
      cases xe with
      | InvalidXml =>
        rw [hr] at h
        simp only [Option.some.injEq, Except.error.injEq] at h
        rw [← h]
        rfl
      | InvalidHtml =>
        rw [hr] at h
        simp only [Option.some.injEq, Except.error.injEq] at h
        rw [← h]
        rfl
      | Eval =>
        rw [hr] at h
        simp only [Option.some.injEq, Except.error.injEq] at h
        rw [← h]
        rfl
      | Unsupported =>
        rw [hr] at h
        exact Option.noConfusion h

/-- Witness for C10: a non-string input with the flag set to true produces an
error whose `assert` flag is true and whose kind carries the type name. -/
theorem xpath_assert_flag_witness :
    ∃ e, eval_xpath wEvalTemplate wEvalMarkupInvalidXml wEvalMarkupInvalidXml
        (Value.bool true) wTemplate wSourceInfo true =
      some (Except.error e) ∧
      e.assert = true ∧
      e.kind = RunnerErrorKind.FilterInvalidInput (Value._type (Value.bool true)) :=
  (xpath_assert_flag wEvalTemplate wEvalMarkupInvalidXml
    wEvalMarkupInvalidXml).1 (Value.bool true) wTemplate wSourceInfo true
    (fun _ h => Value.noConfusion h)

/-- Claim C3: in `eval_explicit_assert` the predicate runs only when the
actual value is `Ok`: a query error, or a filter-chain error, becomes the
`actual` field with `predicate_result = none`; when `actual` is `Ok ov` the
predicate result is `some` of the predicate evaluation at `ov`; and with an
empty filter list the `actual` field is the query's own result verbatim. -/
theorem eval_explicit_assert_predicate_gating
    (eval_query : Query → Except RunnerError (Option Value))
    (eval_filters : List Filter → Value → Except RunnerError (Option Value))
    (eval_predicate : Predicate → Option Value → Except RunnerError Unit)
    (assert : Assert) :
    (∀ e, eval_query assert.query = Except.error e →
      eval_explicit_assert eval_query eval_filters eval_predicate assert =
        AssertResult.Explicit (Except.error e)
          assert.predicate.predicate_func.source_info none) ∧
    (∀ ov, assert.filters = [] → eval_query assert.query = Except.ok ov →
      eval_explicit_assert eval_query eval_filters eval_predicate assert =
        AssertResult.Explicit (Except.ok ov)
          assert.predicate.predicate_func.source_info
          (some (eval_predicate assert.predicate ov))) ∧
    (∀ v e, eval_query assert.query = Except.ok (some v) →
      assert.filters ≠ [] →
      eval_filters (assert.filters.map (fun p => p.2)) v = Except.error e →
      eval_explicit_assert eval_query eval_filters eval_predicate assert =
        AssertResult.Explicit (Except.error e)
          assert.predicate.predicate_func.source_info none) ∧
    (∀ v ov, eval_query assert.query = Except.ok (some v) →
      assert.filters ≠ [] →
      eval_filters (assert.filters.map (fun p => p.2)) v = Except.ok ov →
      eval_explicit_assert eval_query eval_filters eval_predicate assert =
        AssertResult.Explicit (Except.ok ov)
          assert.predicate.predicate_func.source_info
          (some (eval_predicate assert.predicate ov))) := by
  refine ⟨?_, ?_, ?_, ?_⟩
  · intro e hq
    cases hf : assert.filters with
    | nil => simp only [eval_explicit_assert, hf, hq]
    | cons first rest => simp only [eval_explicit_assert, hf, hq]
  · intro ov hf hq
    simp only [eval_explicit_assert, hf, hq]
  · intro v e hq hne hef
    cases hf : assert.filters with
    | nil => exact absurd hf hne
    | cons first rest =>
      rw [hf] at hef
      simp only [eval_explicit_assert, hf, hq, hef]
  · intro v ov hq hne hef
    cases hf : assert.filters with
    | nil => exact absurd hf hne
    | cons first rest =>
      rw [hf] at hef
      simp only [eval_explicit_assert, hf, hq, hef]

/-- Witness for C3: a query producing the number 3 with no filters and a
succeeding predicate yields `actual = Ok (Some 3)` and
`predicate_result = Some (Ok ())`. -/
theorem eval_explicit_assert_predicate_gating_witness :
    eval_explicit_assert wEvalQuerySome3 wEvalFiltersOk wEvalPredicateOk
        wAssert0 =
      AssertResult.Explicit (Except.ok (some (Value.number 3)))
        wAssert0.predicate.predicate_func.source_info
        (some (Except.ok ())) :=
  (eval_explicit_assert_predicate_gating wEvalQuerySome3 wEvalFiltersOk
    wEvalPredicateOk wAssert0).2.1 (some (Value.number 3)) rfl rfl

/-- Claim C4: when the query evaluates to `Ok None` and the filter list is
non-empty, the actual result is `Err FilterMissingInput` positioned at the
first filter's source range, regardless of how many filters follow. -/
theorem eval_explicit_assert_missing_input
    (eval_query : Query → Except RunnerError (Option Value))
    (eval_filters : List Filter → Value → Except RunnerError (Option Value))
    (eval_predicate : Predicate → Option Value → Except RunnerError Unit)
    (assert : Assert) (w : Whitespace) (fl : Filter)
    (rest : List (Whitespace × Filter))
    (hq : eval_query assert.query = Except.ok none)
    (hf : assert.filters = (w, fl) :: rest) :
    eval_explicit_assert eval_query eval_filters eval_predicate assert =
      AssertResult.Explicit
        (Except.error
          { source_info := fl.source_info,
            kind := RunnerErrorKind.FilterMissingInput, assert := true })
        assert.predicate.predicate_func.source_info none := by
  simp only [eval_explicit_assert, hf, hq]

/-- Witness for C4: a concrete assert with one filter whose query yields no
value fails with `FilterMissingInput` at that filter's source range. -/
theorem eval_explicit_assert_missing_input_witness :
    eval_explicit_assert wEvalQueryNone wEvalFiltersOk wEvalPredicateOk
        wAssert1 =
      AssertResult.Explicit
        (Except.error
          { source_info := wFilter.source_info,
            kind := RunnerErrorKind.FilterMissingInput, assert := true })
        wAssert1.predicate.predicate_func.source_info none :=
  eval_explicit_assert_missing_input wEvalQueryNone wEvalFiltersOk
    wEvalPredicateOk wAssert1 wWhitespace wFilter [] rfl rfl

/-- Claim C9: every `RunnerError` that `AssertResult.error` itself constructs
for a failing Version, Status, Header or Body assertion has its `assert` flag
set to false; for Header and Body the hypotheses restrict to the cases where
the returned error is constructed here rather than propagated. -/
theorem assert_result_error_flag_false
    (va ve : String) (sa se : Nat)
    (ha : Except RunnerError String) (he : String)
    (ba be : Except RunnerError Value) (si : SourceInfo) :
    (∀ err, (AssertResult.Version va ve si).error = some err →
      err.assert = false) ∧
    (∀ err, (AssertResult.Status sa se si).error = some err →
      err.assert = false) ∧
    (∀ s err, ha = Except.ok s →
      (AssertResult.Header ha he si).error = some err →
      err.assert = false) ∧
    (∀ x y err, ba = Except.ok x → be = Except.ok y →
      (AssertResult.Body ba be si).error = some err →
      err.assert = false) := by
  refine ⟨?_, ?_, ?_, ?_⟩
  · intro err h
    simp only [AssertResult.error] at h
    split at h
    · exact Option.noConfusion h
    · simp only [Option.some.injEq] at h
      rw [← h]
      rfl
  · intro err h
    simp only [AssertResult.error] at h
    split at h
    · exact Option.noConfusion h
    · simp only [Option.some.injEq] at h
      rw [← h]
      rfl
  · intro s err hok h
    rw [hok] at h
    simp only [AssertResult.error] at h
    split at h
    · exact Option.noConfusion h
    · simp only [Option.some.injEq] at h
      rw [← h]
      rfl
  · intro x y err hax hex h
    rw [hax, hex] at h
    simp only [AssertResult.error] at h
    split at h
    · exact Option.noConfusion h
    · simp only [Option.some.injEq] at h
      rw [← h]
      rfl

/-- Witness for C9: a failing Version assertion at a concrete input yields an
error with `assert = false`. -/
theorem assert_result_error_flag_false_witness :
    ∀ err, (AssertResult.Version "HTTP/1.1" "HTTP/1.0" wSourceInfo).error =
      some err → err.assert = false :=
  (assert_result_error_flag_false "HTTP/1.1" "HTTP/1.0" 200 404
    (Except.ok "x") "y" (Except.ok Value.null) (Except.ok Value.null)
    wSourceInfo).1

/-- Claim C8: a Certificate serializes to an object with exactly five keys,
carrying the subject, the issuer, the start and expire dates, and the serial
number, with the two date values rendered as strings. -/
theorem certificate_to_json_five_keys (c : Certificate) :
    ∃ fields, Certificate.to_json c = Json.obj fields ∧
      fields.length = 5 ∧
      (fields.map Prod.fst).Nodup ∧
      fields.lookup "subject" = some (Json.str c.subject) ∧
      fields.lookup "issue" = some (Json.str c.issuer) ∧
      (∃ s, fields.lookup "start_date" = some (Json.str s)) ∧
      (∃ s, fields.lookup "expire_date" = some (Json.str s)) ∧
      fields.lookup "serial_number" = some (Json.str c.serial_number) := by
  refine ⟨_, rfl, rfl, ?_, rfl, rfl, ⟨c.start_date.rendered, rfl⟩,
    ⟨c.expire_date.rendered, rfl⟩, rfl⟩
  show (["subject", "issue", "start_date", "expire_date",
    "serial_number"] : List String).Nodup
  decide

end Hurl
